import Mathlib

/-!
# Peer-Ride functions — shallow embedding

A shallow embedding of the Firebase cloud functions of the peer-ride
repository (`src/unnamed/part_000`, `src/unnamed/part_001`,
`src/src/index.ts`).  The Firestore database is modelled as association
lists keyed by document id; each callable is a pure function from the
store (plus the caller's auth context and request payload) to a result
paired with the updated store.  A failed callable leaves the store
untouched, exactly as an aborted Firestore transaction or a pre-write
throw does.

Conventions used throughout:
* JavaScript `undefined`/missing fields are modelled with `Option`.
* A payload field whose runtime type check fails (`typeof x !== "string"`,
  `typeof x !== "number"`, non-finite number, non-object) is modelled by
  `none`; `some v` stands for a value of the expected runtime type.
* Timestamps are integers (milliseconds since epoch), as produced by
  `Date.getTime()`.
* JS truthiness on strings: `""` is falsy, every other string is truthy.
* Rendered e-mail bodies (pure string templating) are elided: a queued
  mail document keeps only its recipient and creation time, which is all
  any property below observes.
-/

namespace PeerRide

/-- Firebase `HttpsError` codes used by the source. -/
inductive ErrCode where
  | invalidArgument
  | unauthenticated
  | notFound
  | failedPrecondition
  | permissionDenied
  | alreadyExists
  | resourceExhausted
deriving Repr, DecidableEq

/-- JS truthiness of a possibly-missing string: `undefined` and `""` are falsy. -/
def jsTruthy : Option String → Bool
  | some s => s ≠ ""
  | none => false

/-- Luggage counts as stored in a document ( `carryOnSmall` … keys, or the
`carry-on-small` … keys of `createTrip`, after validation). -/
structure Luggage where
  carryOnSmall : Int
  carryOnLarge : Int
  checkedSmall : Int
  checkedLarge : Int
deriving Repr, DecidableEq

/-- Raw luggage payload: each slot is `some x` when the caller sent a finite
JS number `x`, and `none` when the slot is absent, non-numeric or non-finite. -/
structure LuggagePayload where
  carryOnSmall : Option Int
  carryOnLarge : Option Int
  checkedSmall : Option Int
  checkedLarge : Option Int
deriving Repr, DecidableEq

/-- A location object `{id, name}` from the `createTrip` payload / trip doc. -/
structure Location where
  id : String
  name : String
deriving Repr, DecidableEq

/-- The guest snapshot embedded into a trip by `acceptPairRequest`. -/
structure Guest where
  id : String
  nickname : String
  luggage : Luggage
  note : Option String
  guestContactMethod : String
  guestContactValue : Option String
deriving Repr, DecidableEq

/-- A `trips/{tripId}` document. -/
structure Trip where
  hostId : Option String
  hostNickname : Option String
  hostContactMethod : Option String
  hostContactValue : Option String
  origin : Location
  destination : Location
  departureStart : Int
  departureEnd : Int
  luggage : Luggage
  note : Option String
  status : Option String
  guest : Option Guest
  createdAt : Int
  updatedAt : Int
deriving Repr, DecidableEq

/-- A `pairRequests/{requestId}` document. -/
structure PairRequest where
  tripId : Option String
  hostId : Option String
  hostNickname : String
  requesterId : String
  requesterName : String
  requesterContactMethod : Option String
  requesterContactValue : Option String
  luggage : Luggage
  note : Option String
  status : Option String
  createdAt : Int
  updatedAt : Int
deriving Repr, DecidableEq

/-- A `mail/{id}` document.  `recipient` is the source's `to` field (renamed:
`to` is a reserved token in Lean); `created` is the field written by the
external mail relay (absent on freshly queued mail); `createTime` is the
Firestore document-creation time used as fallback by the cleanup sweep. -/
structure MailDoc where
  recipient : String
  created : Option Int
  createTime : Int
deriving Repr, DecidableEq

/-- The Firestore collections the modelled operations touch.  Chat messages
live at `tripChats/{tripId}/messages/{msgId}` and are modelled as
(tripId, msgId) pairs. -/
structure Store where
  trips : List (String × Trip)
  pairRequests : List (String × PairRequest)
  chatMessages : List (String × String)
  mail : List MailDoc
deriving Repr, DecidableEq

/-- Authenticated caller context (`request.auth`): uid plus optional token
claims. -/
structure Auth where
  uid : String
  tokenEmail : Option String
  tokenName : Option String
deriving Repr, DecidableEq

/-- Fetch a document by id (`firestore().doc(...)` / keyed lookup; first
match, as in `List.lookup`). -/
def getDoc {α : Type} : List (String × α) → String → Option α
  | [], _ => none
  | p :: t, k => if p.1 = k then some p.2 else getDoc t k

/-- Overwrite the document with key `k` (Firestore `update` on an existing
doc); documents with other keys are untouched. -/
def setDoc {α : Type} (l : List (String × α)) (k : String) (v : α) :
    List (String × α) :=
  l.map (fun p => if p.1 = k then (k, v) else p)

/-- The guard `tripData.status && tripData.status !== "open"` of both
`createPairRequest` and `acceptPairRequest`: it fires exactly when the
status field is present, truthy (non-empty) and differs from `"open"`. -/
def tripStatusClosed : Option String → Bool
  | some st => st ≠ "" ∧ st ≠ "open"
  | none => false

/-- The guest snapshot `acceptPairRequest` builds from the accepted request
(`part_001` revision: the contact-method default is `"email"`). -/
def guestOf (r : PairRequest) : Guest :=
  { id := r.requesterId
    nickname := r.requesterName
    luggage := r.luggage
    note := r.note
    guestContactMethod := r.requesterContactMethod.getD "email"
    guestContactValue := r.requesterContactValue }

/-- The post-transaction fan-out of `acceptPairRequest`: every pair request
on trip `tid` that is still `pending` — other than the accepted request
`rid` itself — is set to `declined`. -/
def declineSiblings (l : List (String × PairRequest)) (rid tid : String)
    (now : Int) : List (String × PairRequest) :=
  l.map (fun q =>
    if q.1 ≠ rid ∧ q.2.tripId = some tid ∧ q.2.status = some "pending"
    then (q.1, { q.2 with status := some "declined", updatedAt := now })
    else q)

/-- `acceptPairRequest` (`src/unnamed/part_001`, lines 327–403; the
`part_000` revision is identical except for the `"chat"` contact-method
default in the guest snapshot).  The transaction body performs all reads
and checks before buffering its two updates, so every error path returns
the store unchanged; on success the request is marked `accepted`, the trip
is marked `paired` with the guest snapshot, and the sibling decline fan-out
runs after the transaction. -/
def acceptPairRequest (s : Store) (auth : Option Auth)
    (requestId : Option String) (now : Int) : Except ErrCode Unit × Store :=
  match auth with
  | none => (.error .unauthenticated, s)
  | some a =>
    match requestId with
    | none => (.error .invalidArgument, s)
    | some rid =>
      if rid = "" then (.error .invalidArgument, s)
      else
        match getDoc s.pairRequests rid with
        | none => (.error .notFound, s)
        | some req =>
          if req.status ≠ some "pending" then (.error .failedPrecondition, s)
          else
            match req.tripId with
            | none => (.error .failedPrecondition, s)
            | some tid =>
              if tid = "" then (.error .failedPrecondition, s)
              else
                match getDoc s.trips tid with
                | none => (.error .notFound, s)
                | some trip =>
                  if trip.hostId ≠ some a.uid then (.error .permissionDenied, s)
                  else if tripStatusClosed trip.status then
                    (.error .failedPrecondition, s)
                  else
                    let req2 := { req with status := some "accepted", updatedAt := now }
                    let trip2 := { trip with
                      guest := some (guestOf req)
                      status := some "paired"
                      updatedAt := now }
                    let s1 : Store := { s with
                      pairRequests := setDoc s.pairRequests rid req2
                      trips := setDoc s.trips tid trip2 }
                    (.ok (), { s1 with
                      pairRequests := declineSiblings s1.pairRequests rid tid now })

/-- The shared contact-method/value validation block, duplicated verbatim in
`createPairRequest` and `createTrip` (`part_000`/`part_001`): an
unrecognised or missing method falls back to `"chat"`; for `"email"` and
`"phone"` a non-blank value is required, except that a missing/blank value
with method `"email"` falls back to the caller's auth-token email when one
is present. -/
def resolveContact (method0 : Option String) (value0 : Option String)
    (tokenEmail : Option String) : Except ErrCode (String × Option String) :=
  let method := match method0 with
    | some m => if ["chat", "email", "phone"].contains m then m else "chat"
    | none => "chat"
  if method = "email" ∨ method = "phone" then
    match value0 with
    | some v =>
      if v.trim ≠ "" then .ok (method, some v.trim)
      else if method = "email" ∧ jsTruthy tokenEmail then .ok (method, tokenEmail)
      else .error .invalidArgument
    | none =>
      if method = "email" ∧ jsTruthy tokenEmail then .ok (method, tokenEmail)
      else .error .invalidArgument
  else .ok (method, none)

/-- The luggage validation shared by `createPairRequest`
(`carryOnSmall` … keys, via `isFiniteNonNegative`) and `createTrip`
(`carry-on-small` … keys): every slot must be a finite non-negative
number. -/
def validateLuggage (lg : Option LuggagePayload) : Except ErrCode Luggage :=
  match lg with
  | none => .error .invalidArgument
  | some l =>
    match l.carryOnSmall, l.carryOnLarge, l.checkedSmall, l.checkedLarge with
    | some a, some b, some c, some d =>
      if 0 ≤ a ∧ 0 ≤ b ∧ 0 ≤ c ∧ 0 ≤ d then .ok ⟨a, b, c, d⟩
      else .error .invalidArgument
    | _, _, _, _ => .error .invalidArgument

/-- `typeof x === "string" && x.trim() ? x.trim() : fallback` — the name
resolution used for `requesterName` / `hostNickname` (fallback
`auth.token.name ?? dflt`). -/
def resolveName (given : Option String) (tokenName : Option String)
    (dflt : String) : String :=
  match given with
  | some n => if n.trim ≠ "" then n.trim else tokenName.getD dflt
  | none => tokenName.getD dflt

/-- `typeof note === "string" && note.trim() ? note.trim() : null`. -/
def resolveNote (note : Option String) : Option String :=
  match note with
  | some n => if n.trim ≠ "" then some n.trim else none
  | none => none

/-- Payload of `createPairRequest` (`part_001` shape).  `tripId = none`
stands for an absent or non-string value; per-field conventions as in the
header comment. -/
structure CreatePairPayload where
  tripId : Option String
  luggage : Option LuggagePayload
  note : Option String
  requesterName : Option String
  requesterContactMethod : Option String
  requesterContactValue : Option String
deriving Repr, DecidableEq

/-- The duplicate-request query of `createPairRequest`:
`tripId == tid`, `requesterId == uid`, `status in ["pending","accepted"]`
(non-empty result ⇒ `AlreadyExists`). -/
def hasActiveRequest (l : List (String × PairRequest)) (tid uid : String) : Bool :=
  l.any (fun q => q.2.tripId = some tid ∧ q.2.requesterId = uid ∧
    (q.2.status = some "pending" ∨ q.2.status = some "accepted"))

/-- The pair-request document `createPairRequest` adds on success. -/
def newPairRequestDoc (a : Auth) (p : CreatePairPayload) (tid : String)
    (method : String) (contactValue : Option String) (lg : Luggage)
    (trip : Trip) (now : Int) : PairRequest :=
  { tripId := some tid
    hostId := trip.hostId
    hostNickname := trip.hostNickname.getD "Host"
    requesterId := a.uid
    requesterName := resolveName p.requesterName a.tokenName "Anonymous"
    requesterContactMethod := some method
    requesterContactValue := contactValue
    luggage := lg
    note := resolveNote p.note
    status := some "pending"
    createdAt := now
    updatedAt := now }

/-- `createPairRequest` (`src/unnamed/part_001`, lines 77–232).
`newId` is the fresh id Firestore assigns to the added document;
`getUserEmail` abstracts `admin.auth().getUser(hostId).email` for the
best-effort host-notification mail (`none` covers both a lookup failure
and a host without an email — the surrounding try/catch makes the two
indistinguishable to the caller). -/
def createPairRequest (s : Store) (auth : Option Auth) (p : CreatePairPayload)
    (newId : String) (now : Int) (getUserEmail : String → Option String) :
    Except ErrCode String × Store :=
  match auth with
  | none => (.error .unauthenticated, s)
  | some a =>
    match p.tripId with
    | none => (.error .invalidArgument, s)
    | some tid =>
      if tid = "" then (.error .invalidArgument, s)
      else
        match resolveContact p.requesterContactMethod p.requesterContactValue
            a.tokenEmail with
        | .error e => (.error e, s)
        | .ok (method, contactValue) =>
          match validateLuggage p.luggage with
          | .error e => (.error e, s)
          | .ok lg =>
            match getDoc s.trips tid with
            | none => (.error .notFound, s)
            | some trip =>
              if ¬ jsTruthy trip.hostId then (.error .failedPrecondition, s)
              else if tripStatusClosed trip.status then
                (.error .failedPrecondition, s)
              else if trip.hostId = some a.uid then
                (.error .failedPrecondition, s)
              else if hasActiveRequest s.pairRequests tid a.uid then
                (.error .alreadyExists, s)
              else
                let req : PairRequest :=
                  newPairRequestDoc a p tid method contactValue lg trip now
                let s1 : Store :=
                  { s with pairRequests := s.pairRequests ++ [(newId, req)] }
                -- Best-effort host notification (the pending-count query only
                -- feeds the elided mail body); failures are caught in source.
                let s2 : Store :=
                  match trip.hostId with
                  | some h =>
                    match getUserEmail h with
                    | some e =>
                      if e ≠ ""
                      then { s1 with mail := s1.mail ++ [⟨e, none, now⟩] }
                      else s1
                    | none => s1
                  | none => s1
                (.ok newId, s2)

/-- Payload of `createTrip` (`part_000`/`part_001` shape).  `origin = none`
stands for an absent/non-object value; `departureStart = some t` stands
for a non-empty ISO string denoting instant `t` (`isIsoString` only checks
for a non-empty string). -/
structure CreateTripPayload where
  origin : Option Location
  destination : Option Location
  departureStart : Option Int
  departureEnd : Option Int
  luggage : Option LuggagePayload
  note : Option String
  hostNickname : Option String
  hostContactMethod : Option String
  hostContactValue : Option String
deriving Repr, DecidableEq

/-- The validated data a successful `createTrip` stores. -/
structure ValidTripInput where
  origin : Location
  destination : Location
  departureStart : Int
  departureEnd : Int
  method : String
  contactValue : Option String
  luggage : Luggage
  nickname : String
  note : Option String
deriving Repr, DecidableEq

/-- The input-validation prefix of `createTrip`, identical in `part_000`
and `part_001` (origin, destination, departure strings, contact block,
luggage — in source order). -/
def validateCreateTrip (a : Auth) (p : CreateTripPayload) :
    Except ErrCode ValidTripInput :=
  match p.origin with
  | none => .error .invalidArgument
  | some o =>
    if o.id = "" ∨ o.name = "" then .error .invalidArgument
    else
      match p.destination with
      | none => .error .invalidArgument
      | some d =>
        if d.id = "" ∨ d.name = "" then .error .invalidArgument
        else
          match p.departureStart, p.departureEnd with
          | some ds, some de =>
            match resolveContact p.hostContactMethod p.hostContactValue
                a.tokenEmail with
            | .error e => .error e
            | .ok (method, contactValue) =>
              match validateLuggage p.luggage with
              | .error e => .error e
              | .ok lg =>
                .ok { origin := o, destination := d,
                      departureStart := ds, departureEnd := de,
                      method := method, contactValue := contactValue,
                      luggage := lg,
                      nickname := resolveName p.hostNickname a.tokenName "Host",
                      note := resolveNote p.note }
          | _, _ => .error .invalidArgument

/-- The trip document a successful `createTrip` adds: `status = "open"`,
`guest = null`. -/
def tripFromInput (uid : String) (v : ValidTripInput) (now : Int) : Trip :=
  { hostId := some uid
    hostNickname := some v.nickname
    hostContactMethod := some v.method
    hostContactValue := v.contactValue
    origin := v.origin
    destination := v.destination
    departureStart := v.departureStart
    departureEnd := v.departureEnd
    luggage := v.luggage
    note := v.note
    status := some "open"
    guest := none
    createdAt := now
    updatedAt := now }

/-- The active-trip filter of the `part_001` capacity query:
`hostId == uid`, `status in ["open","paired"]`, `departureEnd >= now`. -/
def isActiveTrip (uid : String) (now : Int) (t : Trip) : Bool :=
  t.hostId = some uid ∧ (t.status = some "open" ∨ t.status = some "paired") ∧
    now ≤ t.departureEnd

/-- The active-trip filter of the `part_000` / `src/index.ts` capacity
query: no `departureEnd` clause. -/
def isActiveTrip_r0 (uid : String) (t : Trip) : Bool :=
  t.hostId = some uid ∧ (t.status = some "open" ∨ t.status = some "paired")

/-- `createTrip` (`src/unnamed/part_001`, lines 234–321): cap of 5 active
trips, counted with the `departureEnd >= now` filter. -/
def createTrip (s : Store) (auth : Option Auth) (p : CreateTripPayload)
    (newId : String) (now : Int) : Except ErrCode String × Store :=
  match auth with
  | none => (.error .unauthenticated, s)
  | some a =>
    match validateCreateTrip a p with
    | .error e => (.error e, s)
    | .ok v =>
      if 5 ≤ s.trips.countP (fun q => isActiveTrip a.uid now q.2) then
        (.error .resourceExhausted, s)
      else
        (.ok newId,
          { s with trips := s.trips ++ [(newId, tripFromInput a.uid v now)] })

/-- `createTrip` (`src/unnamed/part_000`, lines 230–316): cap of 3 active
trips, counted without the departure filter.  (`src/src/index.ts` lines
213–277 uses the same capacity rule.) -/
def createTrip_r0 (s : Store) (auth : Option Auth) (p : CreateTripPayload)
    (newId : String) (now : Int) : Except ErrCode String × Store :=
  match auth with
  | none => (.error .unauthenticated, s)
  | some a =>
    match validateCreateTrip a p with
    | .error e => (.error e, s)
    | .ok v =>
      if 3 ≤ s.trips.countP (fun q => isActiveTrip_r0 a.uid q.2) then
        (.error .resourceExhausted, s)
      else
        (.ok newId,
          { s with trips := s.trips ++ [(newId, tripFromInput a.uid v now)] })

def msPerDay : Int := 24 * 60 * 60 * 1000

def msPerHour : Int := 60 * 60 * 1000

/-- The dedup step of the cleanup sweep's trip-selection loop:
`if (!tripsToDelete.find((d) => d.id === doc.id)) tripsToDelete.push(doc)`. -/
def dedupPush (acc : List (String × Trip)) (doc : String × Trip) :
    List (String × Trip) :=
  if acc.any (fun d => d.1 = doc.1) then acc else acc ++ [doc]

/-- The `tripsSnapOpen` query of the cleanup sweep:
`status == "open" && departureEnd < cutoffOpenTrip` with
`cutoffOpenTrip = now − 1 day`. -/
def staleOpenTrip (now : Int) (t : Trip) : Bool :=
  t.status = some "open" ∧ t.departureEnd < now - 1 * msPerDay

/-- The `tripsSnapAll` query of the cleanup sweep:
`departureEnd < cutoffAllTrip` with
`cutoffAllTrip = cutoffOpenTrip − 2 days`. -/
def staleAnyTrip (now : Int) (t : Trip) : Bool :=
  t.departureEnd < now - 1 * msPerDay - 2 * msPerDay

/-- The ids of the trips the cleanup sweep selects for deletion:
`tripsSnapOpen` extended with the not-yet-seen docs of `tripsSnapAll`
(source's `tripsToDelete` loop). -/
def staleTripIds (s : Store) (now : Int) : List String :=
  ((s.trips.filter (fun p => staleAnyTrip now p.2)).foldl dedupPush
    (s.trips.filter (fun p => staleOpenTrip now p.2))).map Prod.fst

/-- `cleanupStaleData` (`src/unnamed/part_001`, lines 590–651; `part_000`
lines 474–535 is identical).  Each selected trip is deleted together with
its pair requests (`tripId == tripId`) and its
`tripChats/{tripId}/messages` subcollection; mail documents whose
`created` field (falling back to the document create time) is before
`cutoffMail = now − 7 days` are deleted in one batch. -/
def cleanupStaleData (s : Store) (now : Int) : Store :=
  let delIds := staleTripIds s now
  let cutoffMail := now - 7 * msPerDay
  { trips := s.trips.filter (fun p => ¬ p.1 ∈ delIds)
    pairRequests := s.pairRequests.filter
      (fun p => ¬ delIds.any (fun id => p.2.tripId = some id))
    chatMessages := s.chatMessages.filter (fun c => ¬ c.1 ∈ delIds)
    mail := s.mail.filter (fun m => ¬ (m.created.getD m.createTime < cutoffMail)) }

/-- The collaborators the `notifyPairAcceptance` trigger calls.  Each call
is fallible: `.error ()` models a thrown exception.  `getUserEmail`
abstracts `admin.auth().getUser(id)` (its payload is the record's optional
email, the only part the handler reads); `addMail` abstracts
`firestore().collection("mail").add(...)` keyed by recipient (the rendered
body is elided); `getTrip` abstracts the `trips/{tripId}` fetch. -/
structure NotifyEnv where
  getUserEmail : String → Except Unit (Option String)
  addMail : String → Except Unit Unit
  getTrip : String → Except Unit (Option Trip)

/-- A `try { … } catch (err) { console.warn(…) }` block: the body's
exception, if any, is swallowed. -/
def tryIgnore (m : Except Unit Unit) : Except Unit Unit :=
  match m with
  | .error _ => .ok ()
  | .ok x => .ok x

/-- `notifyPairAcceptance` (`src/unnamed/part_001`, lines 506–587).  The
handler's value is `.error ()` exactly when an uncaught exception escapes
it.  The guest-notify, host-notify and decline-notify blocks are each
wrapped in try/catch; the `trips/{tripId}` fetch is not. -/
def notifyPairAcceptance (env : NotifyEnv) (before after : Option PairRequest) :
    Except Unit Unit :=
  match after with
  | none => .ok ()
  | some ad =>
    if before.bind (·.status) = ad.status then .ok ()
    else
      match ad.tripId with
      | none => .ok ()
      | some tid =>
        if ad.requesterId = "" ∨ tid = "" then .ok ()
        else
          match env.getTrip tid with
          | .error e => .error e
          | .ok none => .ok ()
          | .ok (some trip) => do
            if ad.status = some "accepted" then
              -- Notify guest (try/catch)
              let _ ← tryIgnore (do
                match ← env.getUserEmail ad.requesterId with
                | some e => if e ≠ "" then env.addMail e else pure ()
                | none => pure ())
              -- Notify host (try/catch)
              let _ ← tryIgnore (do
                if jsTruthy trip.hostId then
                  match ← env.getUserEmail (trip.hostId.getD "") with
                  | some e => if e ≠ "" then env.addMail e else pure ()
                  | none => pure ()
                else pure ())
              pure ()
            else pure ()
            if ad.status = some "declined" then
              let _ ← tryIgnore (do
                match ← env.getUserEmail ad.requesterId with
                | some e => if e ≠ "" then env.addMail e else pure ()
                | none => pure ())
              pure ()
            else pure ()

/-- `notifyPairAcceptance` (`src/unnamed/part_000`, lines 400–471).  Only
the `getUser` lookup is wrapped in try/catch; the two mail `add` calls are
not, so their exceptions escape the handler.  (`src/src/index.ts` lines
279–334 has the same structure, minus the declined branch.) -/
def notifyPairAcceptance_r0 (env : NotifyEnv)
    (before after : Option PairRequest) : Except Unit Unit :=
  match after with
  | none => .ok ()
  | some ad =>
    if before.bind (·.status) = ad.status then .ok ()
    else
      match ad.tripId with
      | none => .ok ()
      | some tid =>
        if ad.requesterId = "" ∨ tid = "" then .ok ()
        else
          -- try { getUser } catch: requesterEmail stays undefined on failure
          let requesterEmail : Option String :=
            match env.getUserEmail ad.requesterId with
            | .ok e => e
            | .error _ => none
          if ¬ jsTruthy requesterEmail then .ok ()
          else do
            -- trip fetch (tripData may be undefined; only feeds the body)
            let _ ← env.getTrip tid
            if ad.status = some "accepted" then
              env.addMail (requesterEmail.getD "")   -- NOT in try/catch
            else pure ()
            if ad.status = some "declined" then
              env.addMail (requesterEmail.getD "")   -- NOT in try/catch
            else pure ()

/-! ## Helper lemmas about the store primitives -/

theorem getDoc_setDoc_self {α : Type} (l : List (String × α)) (k : String)
    (v w : α) (h : getDoc l k = some w) : getDoc (setDoc l k v) k = some v := by
  induction l with
  | nil => simp [getDoc] at h
  | cons p t ih =>
    simp only [getDoc, setDoc, List.map_cons] at h ⊢
    by_cases hp : p.1 = k
    · simp [hp]
    · simp only [hp, if_false] at h
      simpa [hp] using ih h

theorem getDoc_setDoc_ne {α : Type} (l : List (String × α)) (k k' : String)
    (v : α) (h : k' ≠ k) : getDoc (setDoc l k v) k' = getDoc l k' := by
  induction l with
  | nil => rfl
  | cons p t ih =>
    simp only [setDoc, List.map_cons] at ih ⊢
    by_cases hp : p.1 = k
    · have h1 : ¬ (k = k') := fun he => h he.symm
      have h2 : ¬ (p.1 = k') := by rw [hp]; exact h1
      simp only [getDoc, hp, if_true, h1, if_false, h2]
      exact ih
    · simp only [getDoc, List.map_cons, hp, if_false]
      by_cases hk : p.1 = k'
      · simp [hk]
      · simp only [hk, if_false]
        exact ih

theorem mem_setDoc {α : Type} {l : List (String × α)} {k : String} {v : α}
    {q : String × α} (h : q ∈ setDoc l k v) : q = (k, v) ∨ q ∈ l := by
  simp only [setDoc, List.mem_map] at h
  obtain ⟨p, hp, hq⟩ := h
  by_cases hc : p.1 = k
  · simp only [hc, if_true] at hq
    exact Or.inl hq.symm
  · simp only [hc, if_false] at hq
    exact Or.inr (hq ▸ hp)

theorem getDoc_declineSiblings (l : List (String × PairRequest))
    (rid tid : String) (now : Int) (k : String) :
    getDoc (declineSiblings l rid tid now) k =
      (getDoc l k).map (fun r =>
        if k ≠ rid ∧ r.tripId = some tid ∧ r.status = some "pending"
        then { r with status := some "declined", updatedAt := now }
        else r) := by
  induction l with
  | nil => rfl
  | cons p t ih =>
    simp only [declineSiblings, List.map_cons, getDoc] at ih ⊢
    by_cases hcond : p.1 ≠ rid ∧ p.2.tripId = some tid ∧ p.2.status = some "pending"
    · by_cases hk : p.1 = k
      · simp [hcond, hk.symm ▸ hcond, hk]
      · simp [hcond, hk, ih]
    · by_cases hk : p.1 = k
      · simp only [hcond, if_false, if_neg]
        simp [hk, hk ▸ hcond]
      · simp [hcond, hk, ih]

theorem getDoc_append_right {α : Type} (l : List (String × α))
    (k : String) (v : α) (h : getDoc l k = none) :
    getDoc (l ++ [(k, v)]) k = some v := by
  induction l with
  | nil => simp [getDoc]
  | cons p t ih =>
    simp only [getDoc, List.cons_append] at h ⊢
    by_cases hp : p.1 = k
    · simp [hp] at h
    · simp only [hp, if_false] at h ⊢
      exact ih h

theorem keyNodup_unique {α : Type} {l : List (String × α)}
    (h : (l.map Prod.fst).Nodup) {k : String} {a b : α}
    (ha : (k, a) ∈ l) (hb : (k, b) ∈ l) : a = b := by
  induction l with
  | nil => cases ha
  | cons p t ih =>
    simp only [List.map_cons, List.nodup_cons] at h
    rcases List.mem_cons.mp ha with hpa | hta <;>
      rcases List.mem_cons.mp hb with hpb | htb
    · exact congrArg Prod.snd (hpa.trans hpb.symm)
    · exfalso
      rw [← hpa] at h
      exact h.1 (List.mem_map.mpr ⟨(k, b), htb, rfl⟩)
    · exfalso
      rw [← hpb] at h
      exact h.1 (List.mem_map.mpr ⟨(k, a), hta, rfl⟩)
    · exact ih h.2 hta htb

/-! ## Characterization of `acceptPairRequest` -/

/-- Every error path of `acceptPairRequest` returns the store unchanged. -/
theorem acceptPairRequest_snd_of_error (s : Store) (auth : Option Auth)
    (reqId : Option String) (now : Int) :
    (acceptPairRequest s auth reqId now).1 = .ok () ∨
    (acceptPairRequest s auth reqId now).2 = s := by
  rcases auth with _ | a
  · right; rfl
  rcases reqId with _ | rid
  · right; rfl
  simp only [acceptPairRequest]
  split
  · right; rfl
  · split
    · right; rfl
    · split
      · right; rfl
      · split
        · right; rfl
        · split
          · right; rfl
          · split
            · right; rfl
            · split
              · right; rfl
              · split
                · right; rfl
                · left; rfl

/-- Success characterization of `acceptPairRequest`: all the transaction's
checks passed, and the resulting store carries exactly the two updates plus
the sibling decline fan-out. -/
theorem acceptPairRequest_ok (s : Store) (a : Auth) (rid : String) (now : Int)
    (s' : Store)
    (h : acceptPairRequest s (some a) (some rid) now = (.ok (), s')) :
    rid ≠ "" ∧ ∃ req tid trip,
      getDoc s.pairRequests rid = some req ∧
      req.status = some "pending" ∧
      req.tripId = some tid ∧ tid ≠ "" ∧
      getDoc s.trips tid = some trip ∧
      trip.hostId = some a.uid ∧
      tripStatusClosed trip.status = false ∧
      s' = { s with
        pairRequests := declineSiblings
          (setDoc s.pairRequests rid
            { req with status := some "accepted", updatedAt := now })
          rid tid now
        trips := setDoc s.trips tid
          { trip with guest := some (guestOf req), status := some "paired",
                      updatedAt := now } } := by
  simp only [acceptPairRequest] at h
  split at h
  · simp at h
  next hrid =>
    split at h
    · simp at h
    next req heq =>
      split at h
      · simp at h
      next hst =>
        split at h
        · simp at h
        next tid htid =>
          split at h
          · simp at h
          next htid' =>
            split at h
            · simp at h
            next trip heqt =>
              split at h
              · simp at h
              next hhost =>
                split at h
                · simp at h
                next hcl =>
                  simp only [Prod.mk.injEq] at h
                  refine ⟨hrid, req, tid, trip, heq, not_not.mp hst, htid,
                    htid', heqt, not_not.mp hhost, ?_, h.2.symm⟩
                  simpa using hcl

/-! ## Sample documents used by witnesses -/

def wLuggage : Luggage := ⟨1, 0, 0, 0⟩

def wTrip : Trip :=
  { hostId := some "host1", hostNickname := some "Hosty",
    hostContactMethod := some "chat", hostContactValue := none,
    origin := ⟨"o", "Oak Hall"⟩, destination := ⟨"d", "Airport"⟩,
    departureStart := 100, departureEnd := 200, luggage := wLuggage,
    note := none, status := some "open", guest := none,
    createdAt := 0, updatedAt := 0 }

def wReq : PairRequest :=
  { tripId := some "t1", hostId := some "host1", hostNickname := "Hosty",
    requesterId := "guest1", requesterName := "Guesty",
    requesterContactMethod := some "chat", requesterContactValue := none,
    luggage := wLuggage, note := none, status := some "pending",
    createdAt := 0, updatedAt := 0 }

def wReq2 : PairRequest := { wReq with requesterId := "guest2" }

def wStore : Store :=
  { trips := [("t1", wTrip)]
    pairRequests := [("r1", wReq), ("r2", wReq2)]
    chatMessages := [("t1", "m1")]
    mail := [] }

def wHostAuth : Auth := ⟨"host1", some "host1@example.edu", some "Hosty"⟩

def wGuestAuth : Auth := ⟨"guest3", some "guest3@example.edu", some "G3"⟩

/-- The store after the sample accept (used to state witnesses). -/
def wAccepted : Store :=
  (acceptPairRequest wStore (some wHostAuth) (some "r1") 7).2

/-! ## Claims -/

/-- **C1.** For every accept-pairing-request call on a pending request P of
an open trip T hosted by the caller, after the operation completes
successfully: P.status = accepted, T.status = paired, T.guest is a snapshot
of P with T.guest.id = P.requesterId, and every other PairingRequest with
tripId = T.id whose status was pending is set to declined (the accepted
request itself is excluded from the decline fan-out). -/
theorem accept_success_postcondition (s : Store) (a : Auth) (rid : String)
    (now : Int) (s' : Store)
    (h : acceptPairRequest s (some a) (some rid) now = (.ok (), s')) :
    ∃ req tid trip,
      getDoc s.pairRequests rid = some req ∧
      req.tripId = some tid ∧
      getDoc s.trips tid = some trip ∧
      getDoc s'.pairRequests rid =
        some { req with status := some "accepted", updatedAt := now } ∧
      getDoc s'.trips tid =
        some { trip with status := some "paired", guest := some (guestOf req),
                         updatedAt := now } ∧
      (guestOf req).id = req.requesterId ∧
      (∀ rid' req', rid' ≠ rid →
        getDoc s.pairRequests rid' = some req' →
        req'.tripId = some tid → req'.status = some "pending" →
        getDoc s'.pairRequests rid' =
          some { req' with status := some "declined", updatedAt := now }) := by
  obtain ⟨hrid, req, tid, trip, heq, hst, htid, htid', heqt, hhost, hcl, hs'⟩ :=
    acceptPairRequest_ok s a rid now s' h
  subst hs'
  refine ⟨req, tid, trip, heq, htid, heqt, ?_, ?_, rfl, ?_⟩
  · rw [getDoc_declineSiblings,
      getDoc_setDoc_self s.pairRequests rid _ req heq]
    simp
  · exact getDoc_setDoc_self s.trips tid _ trip heqt
  · intro rid' req' hne hget htrip hpend
    rw [getDoc_declineSiblings, getDoc_setDoc_ne _ _ _ _ hne, hget]
    simp [hne, htrip, hpend]

/-- Witness for C1: the sample host accepts request `r1` on trip `t1`;
the accepted request, the paired trip with its guest snapshot, and the
declined sibling `r2` are all observable in the resulting store. -/
theorem accept_success_postcondition_witness :
    ∃ req tid trip,
      getDoc wStore.pairRequests "r1" = some req ∧
      req.tripId = some tid ∧
      getDoc wStore.trips tid = some trip ∧
      getDoc wAccepted.pairRequests "r1" =
        some { req with status := some "accepted", updatedAt := 7 } ∧
      getDoc wAccepted.trips tid =
        some { trip with status := some "paired", guest := some (guestOf req),
                         updatedAt := 7 } ∧
      (guestOf req).id = req.requesterId ∧
      (∀ rid' req', rid' ≠ "r1" →
        getDoc wStore.pairRequests rid' = some req' →
        req'.tripId = some tid → req'.status = some "pending" →
        getDoc wAccepted.pairRequests rid' =
          some { req' with status := some "declined", updatedAt := 7 }) :=
  accept_success_postcondition wStore wHostAuth "r1" 7 wAccepted rfl

/-- **C3.** The accept-pairing-request operation is atomic over its two
documents: on any precondition failure the store (hence both the
PairingRequest and the Trip document) is unchanged; on success both the
PairingRequest update and the Trip update are applied. -/
theorem accept_atomicity (s : Store) (auth : Option Auth)
    (reqId : Option String) (now : Int) :
    (∀ e, (acceptPairRequest s auth reqId now).1 = .error e →
      (acceptPairRequest s auth reqId now).2 = s) ∧
    (∀ a rid s', auth = some a → reqId = some rid →
      acceptPairRequest s auth reqId now = (.ok (), s') →
      ∃ req tid trip,
        getDoc s.pairRequests rid = some req ∧ req.tripId = some tid ∧
        getDoc s.trips tid = some trip ∧
        getDoc s'.pairRequests rid =
          some { req with status := some "accepted", updatedAt := now } ∧
        getDoc s'.trips tid =
          some { trip with guest := some (guestOf req),
                           status := some "paired", updatedAt := now }) := by
  constructor
  · intro e he
    rcases acceptPairRequest_snd_of_error s auth reqId now with hok | hs
    · rw [hok] at he
      cases he
    · exact hs
  · rintro a rid s' rfl rfl h
    obtain ⟨hrid, req, tid, trip, heq, hst, htid, htid', heqt, hhost, hcl, hs'⟩ :=
      acceptPairRequest_ok s a rid now s' h
    subst hs'
    refine ⟨req, tid, trip, heq, htid, heqt, ?_, ?_⟩
    · rw [getDoc_declineSiblings,
        getDoc_setDoc_self s.pairRequests rid _ req heq]
      simp
    · exact getDoc_setDoc_self s.trips tid _ trip heqt

/-- Witness for C3: an unauthenticated accept leaves the sample store
untouched, and the sample successful accept applies both updates. -/
theorem accept_atomicity_witness :
    (acceptPairRequest wStore none none 7).2 = wStore ∧
    ∃ req tid trip,
      getDoc wStore.pairRequests "r1" = some req ∧ req.tripId = some tid ∧
      getDoc wStore.trips tid = some trip ∧
      getDoc wAccepted.pairRequests "r1" =
        some { req with status := some "accepted", updatedAt := 7 } ∧
      getDoc wAccepted.trips tid =
        some { trip with guest := some (guestOf req),
                         status := some "paired", updatedAt := 7 } :=
  ⟨(accept_atomicity wStore none none 7).1 .unauthenticated rfl,
    (accept_atomicity wStore (some wHostAuth) (some "r1") 7).2
      wHostAuth "r1" wAccepted rfl rfl rfl⟩

/-- **C2.** For every accept-pairing-request call (authenticated, with a
well-formed requestId), the operation fails with NotFound if the request
does not exist; with FailedPrecondition if the request's status is not
pending; with FailedPrecondition if the request has no tripId; with
NotFound if the referenced trip does not exist; with PermissionDenied if
the caller's uid is not the trip's hostId; and with FailedPrecondition if
the trip's status is not open (i.e. carries a non-empty status other than
`"open"` — the code treats a falsy status as absent, see the guard
`tripStatusClosed`).  Each case assumes the previous checks passed, so the
first violated condition determines the error kind. -/
theorem accept_error_order (s : Store) (a : Auth) (rid : String) (now : Int)
    (hrid : rid ≠ "") :
    (getDoc s.pairRequests rid = none →
      (acceptPairRequest s (some a) (some rid) now).1 = .error .notFound) ∧
    (∀ req, getDoc s.pairRequests rid = some req →
      req.status ≠ some "pending" →
      (acceptPairRequest s (some a) (some rid) now).1 =
        .error .failedPrecondition) ∧
    (∀ req, getDoc s.pairRequests rid = some req →
      req.status = some "pending" → req.tripId = none →
      (acceptPairRequest s (some a) (some rid) now).1 =
        .error .failedPrecondition) ∧
    (∀ req tid, getDoc s.pairRequests rid = some req →
      req.status = some "pending" → req.tripId = some tid → tid ≠ "" →
      getDoc s.trips tid = none →
      (acceptPairRequest s (some a) (some rid) now).1 = .error .notFound) ∧
    (∀ req tid trip, getDoc s.pairRequests rid = some req →
      req.status = some "pending" → req.tripId = some tid → tid ≠ "" →
      getDoc s.trips tid = some trip → trip.hostId ≠ some a.uid →
      (acceptPairRequest s (some a) (some rid) now).1 =
        .error .permissionDenied) ∧
    (∀ req tid trip st, getDoc s.pairRequests rid = some req →
      req.status = some "pending" → req.tripId = some tid → tid ≠ "" →
      getDoc s.trips tid = some trip → trip.hostId = some a.uid →
      trip.status = some st → st ≠ "" → st ≠ "open" →
      (acceptPairRequest s (some a) (some rid) now).1 =
        .error .failedPrecondition) := by
  refine ⟨?_, ?_, ?_, ?_, ?_, ?_⟩
  · intro h
    simp [acceptPairRequest, hrid, h]
  · intro req hreq hst
    simp [acceptPairRequest, hrid, hreq, hst]
  · intro req hreq hst htid
    simp [acceptPairRequest, hrid, hreq, hst, htid]
  · intro req tid hreq hst htid htid' htrip
    simp [acceptPairRequest, hrid, hreq, hst, htid, htid', htrip]
  · intro req tid trip hreq hst htid htid' htrip hhost
    simp [acceptPairRequest, hrid, hreq, hst, htid, htid', htrip, hhost]
  · intro req tid trip st hreq hst htid htid' htrip hhost hstat h1 h2
    simp [acceptPairRequest, hrid, hreq, hst, htid, htid', htrip, hhost,
      hstat, tripStatusClosed, h1, h2]

/-- Witness for C2: each of the six error cases exercised on a concrete
store derived from the samples. -/
theorem accept_error_order_witness :
    (acceptPairRequest wStore (some wHostAuth) (some "zz") 0).1 =
      .error .notFound ∧
    (acceptPairRequest
        { wStore with pairRequests :=
            [("r1", { wReq with status := some "accepted" })] }
        (some wHostAuth) (some "r1") 0).1 = .error .failedPrecondition ∧
    (acceptPairRequest
        { wStore with pairRequests := [("r1", { wReq with tripId := none })] }
        (some wHostAuth) (some "r1") 0).1 = .error .failedPrecondition ∧
    (acceptPairRequest { wStore with trips := [] }
        (some wHostAuth) (some "r1") 0).1 = .error .notFound ∧
    (acceptPairRequest wStore (some wGuestAuth) (some "r1") 0).1 =
      .error .permissionDenied ∧
    (acceptPairRequest
        { wStore with trips := [("t1", { wTrip with status := some "paired" })] }
        (some wHostAuth) (some "r1") 0).1 = .error .failedPrecondition :=
  ⟨(accept_error_order wStore wHostAuth "zz" 0 (by decide)).1 rfl,
   (accept_error_order _ wHostAuth "r1" 0 (by decide)).2.1
      { wReq with status := some "accepted" } rfl (by decide),
   (accept_error_order _ wHostAuth "r1" 0 (by decide)).2.2.1
      { wReq with tripId := none } rfl rfl rfl,
   (accept_error_order _ wHostAuth "r1" 0 (by decide)).2.2.2.1
      wReq "t1" rfl rfl rfl (by decide) rfl,
   (accept_error_order wStore wGuestAuth "r1" 0 (by decide)).2.2.2.2.1
      wReq "t1" wTrip rfl rfl rfl (by decide) rfl (by decide),
   (accept_error_order _ wHostAuth "r1" 0 (by decide)).2.2.2.2.2
      wReq "t1" { wTrip with status := some "paired" } "paired"
      rfl rfl rfl (by decide) rfl rfl rfl (by decide) (by decide)⟩

/-! ## Trip invariant (C4) -/

/-- The spec's trip invariant: `status = paired` iff `guest ≠ null`. -/
def tripInvariant (t : Trip) : Prop :=
  t.status = some "paired" ↔ t.guest ≠ none

instance (t : Trip) : Decidable (tripInvariant t) := by
  unfold tripInvariant
  infer_instance

/-- Every trip document of the store satisfies the invariant. -/
def storeInvariant (s : Store) : Prop :=
  ∀ p ∈ s.trips, tripInvariant p.2

instance (s : Store) : Decidable (storeInvariant s) := by
  unfold storeInvariant
  infer_instance

/-- The trip collection after `acceptPairRequest`: unchanged, or the single
`setDoc` of the paired trip. -/
theorem acceptPairRequest_snd_trips (s : Store) (auth : Option Auth)
    (reqId : Option String) (now : Int) :
    (acceptPairRequest s auth reqId now).2 = s ∨
    ∃ req tid trip, getDoc s.trips tid = some trip ∧
      (acceptPairRequest s auth reqId now).2.trips =
        setDoc s.trips tid
          { trip with guest := some (guestOf req), status := some "paired",
                      updatedAt := now } := by
  rcases auth with _ | a
  · left; rfl
  rcases reqId with _ | rid
  · left; rfl
  simp only [acceptPairRequest]
  split
  · left; rfl
  · split
    · left; rfl
    next req heq =>
      split
      · left; rfl
      · split
        · left; rfl
        next tid htid =>
          split
          · left; rfl
          · split
            · left; rfl
            next trip heqt =>
              split
              · left; rfl
              · split
                · left; rfl
                · right
                  exact ⟨req, tid, trip, heqt, rfl⟩

/-- `createPairRequest` never touches the trip collection. -/
theorem createPairRequest_snd_trips (s : Store) (auth : Option Auth)
    (p : CreatePairPayload) (newId : String) (now : Int)
    (g : String → Option String) :
    (createPairRequest s auth p newId now g).2.trips = s.trips := by
  rcases auth with _ | a
  · rfl
  simp only [createPairRequest]
  repeat' split
  all_goals rfl

/-- The trip collection after `createTrip`: unchanged, or extended with the
freshly validated trip. -/
theorem createTrip_snd_trips (s : Store) (auth : Option Auth)
    (p : CreateTripPayload) (newId : String) (now : Int) :
    (createTrip s auth p newId now).2 = s ∨
    ∃ a v, auth = some a ∧ validateCreateTrip a p = .ok v ∧
      (createTrip s auth p newId now).2.trips =
        s.trips ++ [(newId, tripFromInput a.uid v now)] := by
  rcases auth with _ | a
  · left; rfl
  simp only [createTrip]
  split
  · left; rfl
  next v hval =>
    split
    · left; rfl
    · right
      exact ⟨a, v, rfl, hval, rfl⟩

/-- Same, for the `part_000` revision. -/
theorem createTrip_r0_snd_trips (s : Store) (auth : Option Auth)
    (p : CreateTripPayload) (newId : String) (now : Int) :
    (createTrip_r0 s auth p newId now).2 = s ∨
    ∃ a v, auth = some a ∧ validateCreateTrip a p = .ok v ∧
      (createTrip_r0 s auth p newId now).2.trips =
        s.trips ++ [(newId, tripFromInput a.uid v now)] := by
  rcases auth with _ | a
  · left; rfl
  simp only [createTrip_r0]
  split
  · left; rfl
  next v hval =>
    split
    · left; rfl
    · right
      exact ⟨a, v, rfl, hval, rfl⟩

/-- **C4.** For every trip document produced by the system's operations,
status = paired iff guest ≠ null: `createTrip` (both revisions) writes
status = open with guest = null; `acceptPairRequest` sets status = paired
and a non-null guest in the same update; `createPairRequest` and the
cleanup sweep never change a trip's fields — so every operation preserves
the invariant. -/
theorem paired_iff_guest_invariant :
    (∀ uid v now, (tripFromInput uid v now).status = some "open" ∧
      (tripFromInput uid v now).guest = none) ∧
    (∀ s auth p newId now, storeInvariant s →
      storeInvariant (createTrip s auth p newId now).2) ∧
    (∀ s auth p newId now, storeInvariant s →
      storeInvariant (createTrip_r0 s auth p newId now).2) ∧
    (∀ s auth reqId now, storeInvariant s →
      storeInvariant (acceptPairRequest s auth reqId now).2) ∧
    (∀ s auth p newId now g, storeInvariant s →
      storeInvariant (createPairRequest s auth p newId now g).2) ∧
    (∀ s now, storeInvariant s → storeInvariant (cleanupStaleData s now)) := by
  refine ⟨fun _ _ _ => ⟨rfl, rfl⟩, ?_, ?_, ?_, ?_, ?_⟩
  · intro s auth p newId now hinv
    rcases createTrip_snd_trips s auth p newId now with h | ⟨a, v, -, -, h⟩
    · rw [h]; exact hinv
    · intro q hq
      rw [h] at hq
      rcases List.mem_append.mp hq with hq | hq
      · exact hinv q hq
      · simp only [List.mem_singleton] at hq
        rw [hq]
        simp [tripInvariant, tripFromInput]
  · intro s auth p newId now hinv
    rcases createTrip_r0_snd_trips s auth p newId now with h | ⟨a, v, -, -, h⟩
    · rw [h]; exact hinv
    · intro q hq
      rw [h] at hq
      rcases List.mem_append.mp hq with hq | hq
      · exact hinv q hq
      · simp only [List.mem_singleton] at hq
        rw [hq]
        simp [tripInvariant, tripFromInput]
  · intro s auth reqId now hinv
    rcases acceptPairRequest_snd_trips s auth reqId now with h | ⟨req, tid, trip, -, h⟩
    · rw [h]; exact hinv
    · intro q hq
      rw [h] at hq
      rcases mem_setDoc hq with hq | hq
      · rw [hq]
        simp [tripInvariant]
      · exact hinv q hq
  · intro s auth p newId now g hinv
    intro q hq
    rw [createPairRequest_snd_trips s auth p newId now g] at hq
    exact hinv q hq
  · intro s now hinv q hq
    simp only [cleanupStaleData, List.mem_filter] at hq
    exact hinv q hq.1

/-- Witness for C4: the sample store satisfies the invariant, and so does
the store after the sample successful accept. -/
theorem paired_iff_guest_invariant_witness :
    storeInvariant (acceptPairRequest wStore (some wHostAuth) (some "r1") 7).2 :=
  paired_iff_guest_invariant.2.2.2.1 wStore (some wHostAuth) (some "r1") 7
    (by decide)

/-! ## Characterization of `createPairRequest` (C5) -/

/-- The only error `resolveContact` raises is `InvalidArgument`. -/
theorem resolveContact_error (m v t : Option String) (e : ErrCode)
    (h : resolveContact m v t = .error e) : e = .invalidArgument := by
  simp only [resolveContact] at h
  repeat' split at h
  all_goals simp_all

/-- The only error `validateLuggage` raises is `InvalidArgument`. -/
theorem validateLuggage_error (lg : Option LuggagePayload) (e : ErrCode)
    (h : validateLuggage lg = .error e) : e = .invalidArgument := by
  simp only [validateLuggage] at h
  repeat' split at h
  all_goals simp_all

/-- When every check of `createPairRequest` passes, the call returns the new
id and the request collection gains exactly the new pending document. -/
theorem createPairRequest_ok_shape (s : Store) (a : Auth)
    (p : CreatePairPayload) (newId : String) (now : Int)
    (g : String → Option String) (tid method : String)
    (contactValue : Option String) (lg : Luggage) (trip : Trip)
    (htid : p.tripId = some tid) (htid' : tid ≠ "")
    (hres : resolveContact p.requesterContactMethod p.requesterContactValue
      a.tokenEmail = .ok (method, contactValue))
    (hlug : validateLuggage p.luggage = .ok lg)
    (htrip : getDoc s.trips tid = some trip)
    (hhostT : jsTruthy trip.hostId = true)
    (hstat : tripStatusClosed trip.status = false)
    (hself : trip.hostId ≠ some a.uid)
    (hdup : hasActiveRequest s.pairRequests tid a.uid = false) :
    (createPairRequest s (some a) p newId now g).1 = .ok newId ∧
    (createPairRequest s (some a) p newId now g).2.pairRequests =
      s.pairRequests ++
        [(newId, newPairRequestDoc a p tid method contactValue lg trip now)] := by
  simp only [createPairRequest, htid, hres, hlug, htrip]
  rw [if_neg htid']
  rw [if_neg (by rw [hhostT]; simp)]
  rw [if_neg (by rw [hstat]; simp)]
  rw [if_neg hself]
  rw [if_neg (by rw [hdup]; simp)]
  constructor
  · repeat' split
    all_goals rfl
  · repeat' split
    all_goals rfl

/-- **C5.** For every create-pairing-request call (authenticated), the
operation fails with InvalidArgument on a malformed tripId, contact field
or luggage field; with NotFound if the trip does not exist; with
FailedPrecondition if the trip has no hostId; with FailedPrecondition if
the trip's status is not open (a non-empty status other than `"open"`);
with FailedPrecondition if the caller is the trip's host; and with
AlreadyExists if the caller already has a request on this trip with status
in \x7bpending, accepted\x7d; otherwise it creates a new PairingRequest
with status = pending.  Each case assumes the previous checks passed (the
source checks them in this order). -/
theorem createPair_error_order (s : Store) (a : Auth) (p : CreatePairPayload)
    (newId : String) (now : Int) (g : String → Option String) :
    (p.tripId = none →
      (createPairRequest s (some a) p newId now g).1 =
        .error .invalidArgument) ∧
    (∀ tid e, p.tripId = some tid → tid ≠ "" →
      resolveContact p.requesterContactMethod p.requesterContactValue
        a.tokenEmail = .error e →
      (createPairRequest s (some a) p newId now g).1 =
        .error .invalidArgument) ∧
    (∀ tid mc e, p.tripId = some tid → tid ≠ "" →
      resolveContact p.requesterContactMethod p.requesterContactValue
        a.tokenEmail = .ok mc →
      validateLuggage p.luggage = .error e →
      (createPairRequest s (some a) p newId now g).1 =
        .error .invalidArgument) ∧
    (∀ tid mc lg, p.tripId = some tid → tid ≠ "" →
      resolveContact p.requesterContactMethod p.requesterContactValue
        a.tokenEmail = .ok mc →
      validateLuggage p.luggage = .ok lg →
      getDoc s.trips tid = none →
      (createPairRequest s (some a) p newId now g).1 = .error .notFound) ∧
    (∀ tid mc lg trip, p.tripId = some tid → tid ≠ "" →
      resolveContact p.requesterContactMethod p.requesterContactValue
        a.tokenEmail = .ok mc →
      validateLuggage p.luggage = .ok lg →
      getDoc s.trips tid = some trip →
      jsTruthy trip.hostId = false →
      (createPairRequest s (some a) p newId now g).1 =
        .error .failedPrecondition) ∧
    (∀ tid mc lg trip st, p.tripId = some tid → tid ≠ "" →
      resolveContact p.requesterContactMethod p.requesterContactValue
        a.tokenEmail = .ok mc →
      validateLuggage p.luggage = .ok lg →
      getDoc s.trips tid = some trip →
      jsTruthy trip.hostId = true →
      trip.status = some st → st ≠ "" → st ≠ "open" →
      (createPairRequest s (some a) p newId now g).1 =
        .error .failedPrecondition) ∧
    (∀ tid mc lg trip, p.tripId = some tid → tid ≠ "" →
      resolveContact p.requesterContactMethod p.requesterContactValue
        a.tokenEmail = .ok mc →
      validateLuggage p.luggage = .ok lg →
      getDoc s.trips tid = some trip →
      jsTruthy trip.hostId = true →
      tripStatusClosed trip.status = false →
      trip.hostId = some a.uid →
      (createPairRequest s (some a) p newId now g).1 =
        .error .failedPrecondition) ∧
    (∀ tid mc lg trip, p.tripId = some tid → tid ≠ "" →
      resolveContact p.requesterContactMethod p.requesterContactValue
        a.tokenEmail = .ok mc →
      validateLuggage p.luggage = .ok lg →
      getDoc s.trips tid = some trip →
      jsTruthy trip.hostId = true →
      tripStatusClosed trip.status = false →
      trip.hostId ≠ some a.uid →
      hasActiveRequest s.pairRequests tid a.uid = true →
      (createPairRequest s (some a) p newId now g).1 =
        .error .alreadyExists) ∧
    (∀ tid method contactValue lg trip, p.tripId = some tid → tid ≠ "" →
      resolveContact p.requesterContactMethod p.requesterContactValue
        a.tokenEmail = .ok (method, contactValue) →
      validateLuggage p.luggage = .ok lg →
      getDoc s.trips tid = some trip →
      jsTruthy trip.hostId = true →
      tripStatusClosed trip.status = false →
      trip.hostId ≠ some a.uid →
      hasActiveRequest s.pairRequests tid a.uid = false →
      getDoc s.pairRequests newId = none →
      (createPairRequest s (some a) p newId now g).1 = .ok newId ∧
      ∃ req, getDoc (createPairRequest s (some a) p newId now g).2.pairRequests
          newId = some req ∧
        req.status = some "pending" ∧ req.requesterId = a.uid ∧
        req.tripId = some tid) := by
  refine ⟨?_, ?_, ?_, ?_, ?_, ?_, ?_, ?_, ?_⟩
  · intro h
    simp [createPairRequest, h]
  · intro tid e htid htid' hres
    have he := resolveContact_error _ _ _ _ hres
    subst he
    simp [createPairRequest, htid, htid', hres]
  · intro tid mc e htid htid' hres hlug
    have he := validateLuggage_error _ _ hlug
    subst he
    rcases mc with ⟨method, contactValue⟩
    simp [createPairRequest, htid, htid', hres, hlug]
  · intro tid mc lg htid htid' hres hlug htrip
    rcases mc with ⟨method, contactValue⟩
    simp [createPairRequest, htid, htid', hres, hlug, htrip]
  · intro tid mc lg trip htid htid' hres hlug htrip hhost
    rcases mc with ⟨method, contactValue⟩
    simp [createPairRequest, htid, htid', hres, hlug, htrip, hhost]
  · intro tid mc lg trip st htid htid' hres hlug htrip hhost hstat h1 h2
    rcases mc with ⟨method, contactValue⟩
    simp [createPairRequest, htid, htid', hres, hlug, htrip, hhost, hstat,
      tripStatusClosed, h1, h2]
  · intro tid mc lg trip htid htid' hres hlug htrip hhost hstat hself
    rcases mc with ⟨method, contactValue⟩
    simp [createPairRequest, htid, htid', hres, hlug, htrip, hhost, hstat,
      hself]
  · intro tid mc lg trip htid htid' hres hlug htrip hhost hstat hself hdup
    rcases mc with ⟨method, contactValue⟩
    simp [createPairRequest, htid, htid', hres, hlug, htrip, hhost, hstat,
      hself, hdup]
  · intro tid method contactValue lg trip htid htid' hres hlug htrip hhost
      hstat hself hdup hfresh
    obtain ⟨h1, h2⟩ := createPairRequest_ok_shape s a p newId now g tid
      method contactValue lg trip htid htid' hres hlug htrip hhost hstat
      hself hdup
    refine ⟨h1, newPairRequestDoc a p tid method contactValue lg trip now,
      ?_, rfl, rfl, rfl⟩
    rw [h2]
    exact getDoc_append_right s.pairRequests newId _ hfresh

/-- A well-formed sample pairing-request payload. -/
def wP : CreatePairPayload :=
  { tripId := some "t1", luggage := some ⟨some 1, some 0, some 0, some 0⟩,
    note := none, requesterName := none, requesterContactMethod := none,
    requesterContactValue := none }

def wPnoTrip : CreatePairPayload := { wP with tripId := none }

def wPphone : CreatePairPayload := { wP with requesterContactMethod := some "phone" }

def wPbadLug : CreatePairPayload :=
  { wP with luggage := some ⟨some (-1), some 0, some 0, some 0⟩ }

def wAuthNoTok : Auth := ⟨"guest3", none, none⟩

def wAuthG1 : Auth := ⟨"guest1", none, none⟩

def wStoreNoTrip : Store := { wStore with trips := [] }

def wStoreHostless : Store :=
  { wStore with trips := [("t1", { wTrip with hostId := none })] }

def wStorePaired : Store :=
  { wStore with trips := [("t1", { wTrip with status := some "paired" })] }

/-- Witness for C5: the nine cases exercised on concrete stores derived
from the samples (wGuestAuth requesting trip `t1`). -/
theorem createPair_error_order_witness :
    (createPairRequest wStore (some wGuestAuth) wPnoTrip "n1" 0
        (fun _ => none)).1 = .error .invalidArgument ∧
    (createPairRequest wStore (some wAuthNoTok) wPphone "n1" 0
        (fun _ => none)).1 = .error .invalidArgument ∧
    (createPairRequest wStore (some wGuestAuth) wPbadLug "n1" 0
        (fun _ => none)).1 = .error .invalidArgument ∧
    (createPairRequest wStoreNoTrip (some wGuestAuth) wP "n1" 0
        (fun _ => none)).1 = .error .notFound ∧
    (createPairRequest wStoreHostless (some wGuestAuth) wP "n1" 0
        (fun _ => none)).1 = .error .failedPrecondition ∧
    (createPairRequest wStorePaired (some wGuestAuth) wP "n1" 0
        (fun _ => none)).1 = .error .failedPrecondition ∧
    (createPairRequest wStore (some wHostAuth) wP "n1" 0
        (fun _ => none)).1 = .error .failedPrecondition ∧
    (createPairRequest wStore (some wAuthG1) wP "n1" 0
        (fun _ => none)).1 = .error .alreadyExists ∧
    (createPairRequest wStore (some wGuestAuth) wP "n1" 0
        (fun _ => none)).1 = .ok "n1" ∧
    ∃ req, getDoc (createPairRequest wStore (some wGuestAuth) wP "n1" 0
        (fun _ => none)).2.pairRequests "n1" = some req ∧
      req.status = some "pending" ∧ req.requesterId = wGuestAuth.uid ∧
      req.tripId = some "t1" :=
  ⟨(createPair_error_order wStore wGuestAuth wPnoTrip "n1" 0 _).1 rfl,
   (createPair_error_order wStore wAuthNoTok wPphone "n1" 0 _).2.1
      "t1" .invalidArgument rfl (by decide) rfl,
   (createPair_error_order wStore wGuestAuth wPbadLug "n1" 0 _).2.2.1
      "t1" ("chat", none) .invalidArgument rfl (by decide) rfl rfl,
   (createPair_error_order wStoreNoTrip wGuestAuth wP "n1" 0 _).2.2.2.1
      "t1" ("chat", none) ⟨1, 0, 0, 0⟩ rfl (by decide) rfl rfl rfl,
   (createPair_error_order wStoreHostless wGuestAuth wP "n1" 0 _).2.2.2.2.1
      "t1" ("chat", none) ⟨1, 0, 0, 0⟩ { wTrip with hostId := none }
      rfl (by decide) rfl rfl rfl rfl,
   (createPair_error_order wStorePaired wGuestAuth wP "n1" 0 _).2.2.2.2.2.1
      "t1" ("chat", none) ⟨1, 0, 0, 0⟩ { wTrip with status := some "paired" }
      "paired" rfl (by decide) rfl rfl rfl (by decide) rfl (by decide) (by decide),
   (createPair_error_order wStore wHostAuth wP "n1" 0 _).2.2.2.2.2.2.1
      "t1" ("chat", none) ⟨1, 0, 0, 0⟩ wTrip
      rfl (by decide) rfl rfl rfl (by decide) (by decide) rfl,
   (createPair_error_order wStore wAuthG1 wP "n1" 0 _).2.2.2.2.2.2.2.1
      "t1" ("chat", none) ⟨1, 0, 0, 0⟩ wTrip
      rfl (by decide) rfl rfl rfl (by decide) (by decide) (by decide) rfl,
   (createPair_error_order wStore wGuestAuth wP "n1" 0 _).2.2.2.2.2.2.2.2
      "t1" "chat" none ⟨1, 0, 0, 0⟩ wTrip
      rfl (by decide) rfl rfl rfl (by decide) (by decide) (by decide) rfl rfl⟩

/-! ## Characterization of the cleanup sweep (C7) -/

theorem mem_map_fst_foldl_dedupPush (l acc : List (String × Trip)) (x : String) :
    x ∈ (l.foldl dedupPush acc).map Prod.fst ↔
      x ∈ acc.map Prod.fst ∨ x ∈ l.map Prod.fst := by
  induction l generalizing acc with
  | nil => simp
  | cons d t ih =>
    simp only [List.foldl_cons, List.map_cons, List.mem_cons]
    rw [ih]
    unfold dedupPush
    by_cases hc : acc.any (fun q => q.1 = d.1) = true
    · simp only [hc, if_true]
      obtain ⟨q, hq, hq2⟩ := List.any_eq_true.mp hc
      have hd : d.1 ∈ acc.map Prod.fst :=
        List.mem_map.mpr ⟨q, hq, of_decide_eq_true hq2⟩
      constructor
      · rintro (h | h)
        · exact Or.inl h
        · exact Or.inr (Or.inr h)
      · rintro (h | h | h)
        · exact Or.inl h
        · exact Or.inl (h ▸ hd)
        · exact Or.inr h
    · rw [if_neg hc]
      simp only [List.map_append, List.mem_append, List.map_cons,
        List.map_nil, List.mem_singleton]
      tauto

/-- A trip id is selected by the sweep iff some trip document with that id
satisfies one of the two staleness queries. -/
theorem mem_staleTripIds (s : Store) (now : Int) (x : String) :
    x ∈ staleTripIds s now ↔
      ∃ t, (x, t) ∈ s.trips ∧
        (staleOpenTrip now t = true ∨ staleAnyTrip now t = true) := by
  unfold staleTripIds
  rw [mem_map_fst_foldl_dedupPush]
  constructor
  · rintro (h | h) <;>
      obtain ⟨p, hp, hx⟩ := List.mem_map.mp h <;>
      obtain ⟨hmem, hcond⟩ := List.mem_filter.mp hp
    · exact ⟨p.2, by rw [← hx]; exact Prod.mk.eta ▸ hmem, Or.inl hcond⟩
    · exact ⟨p.2, by rw [← hx]; exact Prod.mk.eta ▸ hmem, Or.inr hcond⟩
  · rintro ⟨t, hmem, hsel | hsel⟩
    · exact Or.inl (List.mem_map.mpr ⟨(x, t), List.mem_filter.mpr ⟨hmem, hsel⟩, rfl⟩)
    · exact Or.inr (List.mem_map.mpr ⟨(x, t), List.mem_filter.mpr ⟨hmem, hsel⟩, rfl⟩)

/-- **C7.** For every run of the cleanup sweep at time `now`, exactly these
documents are selected for deletion: trips with status = open and
departureEnd more than 1 day before now, trips of any status with
departureEnd more than 3 days before now, and mail documents created more
than 7 days before now; each selected trip is deleted together with all
its pairing requests and its chat-message subcollection; in particular an
open trip with departureEnd = now − 2 days is deleted and a trip with
departureEnd = now − 12 hours is retained. -/
theorem cleanup_selection (s : Store) (now : Int)
    (hkeys : (s.trips.map Prod.fst).Nodup) :
    (∀ t, staleOpenTrip now t = true ↔
      (t.status = some "open" ∧ t.departureEnd < now - msPerDay)) ∧
    (∀ t, staleAnyTrip now t = true ↔ t.departureEnd < now - 3 * msPerDay) ∧
    (∀ id t, (id, t) ∈ s.trips →
      ((id, t) ∈ (cleanupStaleData s now).trips ↔
        ¬ (staleOpenTrip now t = true ∨ staleAnyTrip now t = true))) ∧
    (∀ rid r, (rid, r) ∈ s.pairRequests →
      ((rid, r) ∈ (cleanupStaleData s now).pairRequests ↔
        ¬ ∃ id t, (id, t) ∈ s.trips ∧
          (staleOpenTrip now t = true ∨ staleAnyTrip now t = true) ∧
          r.tripId = some id)) ∧
    (∀ c, c ∈ s.chatMessages →
      (c ∈ (cleanupStaleData s now).chatMessages ↔
        ¬ ∃ t, (c.1, t) ∈ s.trips ∧
          (staleOpenTrip now t = true ∨ staleAnyTrip now t = true))) ∧
    (∀ m, m ∈ s.mail →
      (m ∈ (cleanupStaleData s now).mail ↔
        ¬ (m.created.getD m.createTime < now - 7 * msPerDay))) ∧
    (∀ id t, (id, t) ∈ s.trips → t.status = some "open" →
      t.departureEnd = now - 2 * msPerDay →
      (id, t) ∉ (cleanupStaleData s now).trips) ∧
    (∀ id t, (id, t) ∈ s.trips → t.departureEnd = now - 12 * msPerHour →
      (id, t) ∈ (cleanupStaleData s now).trips) := by
  have htrips : ∀ id t, (id, t) ∈ s.trips →
      ((id, t) ∈ (cleanupStaleData s now).trips ↔
        ¬ (staleOpenTrip now t = true ∨ staleAnyTrip now t = true)) := by
    intro id t hmem
    simp only [cleanupStaleData, List.mem_filter, decide_eq_true_eq]
    rw [mem_staleTripIds]
    constructor
    · rintro ⟨-, hno⟩ hsel
      exact hno ⟨t, hmem, hsel⟩
    · intro hno
      refine ⟨hmem, ?_⟩
      rintro ⟨t', hmem', hsel'⟩
      exact hno (keyNodup_unique hkeys hmem hmem' ▸ hsel')
  refine ⟨?_, ?_, htrips, ?_, ?_, ?_, ?_, ?_⟩
  · intro t
    simp [staleOpenTrip, msPerDay]
  · intro t
    constructor
    · intro h
      simp only [staleAnyTrip, decide_eq_true_eq] at h
      simp only [msPerDay] at h ⊢
      omega
    · intro h
      simp only [staleAnyTrip, decide_eq_true_eq]
      simp only [msPerDay] at h ⊢
      omega
  · intro rid r hmem
    simp only [cleanupStaleData, List.mem_filter, decide_eq_true_eq]
    constructor
    · rintro ⟨-, hno⟩ ⟨id, t, hmemT, hsel, htid⟩
      refine hno (List.any_eq_true.mpr ⟨id, ?_, by simpa using htid⟩)
      exact (mem_staleTripIds s now id).mpr ⟨t, hmemT, hsel⟩
    · intro hno
      refine ⟨hmem, ?_⟩
      intro hany
      obtain ⟨id, hid, htid⟩ := List.any_eq_true.mp hany
      obtain ⟨t, hmemT, hsel⟩ := (mem_staleTripIds s now id).mp hid
      exact hno ⟨id, t, hmemT, hsel, of_decide_eq_true htid⟩
  · intro c hmem
    simp only [cleanupStaleData, List.mem_filter, decide_eq_true_eq]
    rw [mem_staleTripIds]
    constructor
    · rintro ⟨-, hno⟩ ⟨t, hmemT, hsel⟩
      exact hno ⟨t, hmemT, hsel⟩
    · intro hno
      exact ⟨hmem, fun ⟨t, hmemT, hsel⟩ => hno ⟨t, hmemT, hsel⟩⟩
  · intro m hmem
    simp only [cleanupStaleData, List.mem_filter, decide_eq_true_eq]
    constructor
    · rintro ⟨-, h⟩
      exact h
    · intro h
      exact ⟨hmem, h⟩
  · intro id t hmem hopen hend
    rw [htrips id t hmem]
    intro hno
    refine hno (Or.inl ?_)
    simp only [staleOpenTrip, decide_eq_true_eq]
    refine ⟨hopen, ?_⟩
    rw [hend]
    simp only [msPerDay]
    omega
  · intro id t hmem hend
    rw [htrips id t hmem]
    rintro (h | h)
    · simp only [staleOpenTrip, decide_eq_true_eq] at h
      rw [hend] at h
      obtain ⟨-, h⟩ := h
      simp only [msPerDay, msPerHour] at h
      omega
    · simp only [staleAnyTrip, decide_eq_true_eq] at h
      rw [hend] at h
      simp only [msPerDay, msPerHour] at h
      omega

/-- A store for the C7 witness: one open trip two days past its departure
end, one trip twelve hours past. -/
def wCleanupStore : Store :=
  { trips := [("a", { wTrip with departureEnd := -(2 * msPerDay) }),
              ("b", { wTrip with departureEnd := -(12 * msPerHour) })]
    pairRequests := [("r1", { wReq with tripId := some "a" })]
    chatMessages := [("a", "m1")]
    mail := [⟨"x@example.edu", some (-(8 * msPerDay)), 0⟩,
             ⟨"y@example.edu", none, -(6 * msPerDay)⟩] }

/-- Witness for C7: a two-trip store (one stale open trip two days past,
one trip twelve hours past) with a pair request and a chat message on the
stale trip, plus one old and one fresh mail document. -/
theorem cleanup_selection_witness :
    ((("a", { wTrip with departureEnd := -(2 * msPerDay) }) ∈
        (cleanupStaleData wCleanupStore 0).trips ↔
      ¬ (staleOpenTrip 0 { wTrip with departureEnd := -(2 * msPerDay) } = true ∨
         staleAnyTrip 0 { wTrip with departureEnd := -(2 * msPerDay) } = true)) ∧
     (("a", { wTrip with departureEnd := -(2 * msPerDay) }) ∉
        (cleanupStaleData wCleanupStore 0).trips) ∧
     (("b", { wTrip with departureEnd := -(12 * msPerHour) }) ∈
        (cleanupStaleData wCleanupStore 0).trips)) :=
  ⟨(cleanup_selection wCleanupStore 0 (by decide)).2.2.1 "a"
      { wTrip with departureEnd := -(2 * msPerDay) } (by decide),
   (cleanup_selection wCleanupStore 0 (by decide)).2.2.2.2.2.2.1 "a"
      { wTrip with departureEnd := -(2 * msPerDay) } (by decide) rfl (by decide),
   (cleanup_selection wCleanupStore 0 (by decide)).2.2.2.2.2.2.2 "b"
      { wTrip with departureEnd := -(12 * msPerHour) } (by decide) (by decide)⟩

/-- **C6.** For every create-trip call by an authenticated host with a
valid payload, the operation counts the host's trips with status in
\x7bopen, paired\x7d (in the later revision further filtered to
departureEnd ≥ now) and fails with ResourceExhausted — without creating
any trip — if that count is ≥ K (K = 5 in `part_001`, K = 3 in
`part_000`/`index.ts`); if the count is < K the creation succeeds. -/
theorem createTrip_capacity (s : Store) (a : Auth) (p : CreateTripPayload)
    (newId : String) (now : Int) (v : ValidTripInput)
    (hval : validateCreateTrip a p = .ok v) :
    ((5 ≤ s.trips.countP (fun q => isActiveTrip a.uid now q.2) →
      createTrip s (some a) p newId now = (.error .resourceExhausted, s)) ∧
     (s.trips.countP (fun q => isActiveTrip a.uid now q.2) < 5 →
      createTrip s (some a) p newId now =
        (.ok newId,
          { s with trips := s.trips ++ [(newId, tripFromInput a.uid v now)] }))) ∧
    ((3 ≤ s.trips.countP (fun q => isActiveTrip_r0 a.uid q.2) →
      createTrip_r0 s (some a) p newId now = (.error .resourceExhausted, s)) ∧
     (s.trips.countP (fun q => isActiveTrip_r0 a.uid q.2) < 3 →
      createTrip_r0 s (some a) p newId now =
        (.ok newId,
          { s with trips := s.trips ++ [(newId, tripFromInput a.uid v now)] }))) := by
  refine ⟨⟨?_, ?_⟩, ⟨?_, ?_⟩⟩ <;> intro h <;>
    simp only [createTrip, createTrip_r0, hval]
  · rw [if_pos h]
  · rw [if_neg (not_le.mpr h)]
  · rw [if_pos h]
  · rw [if_neg (not_le.mpr h)]

/-- A well-formed sample trip payload (contact method defaults to chat). -/
def wTP : CreateTripPayload :=
  { origin := some ⟨"o1", "Campus"⟩, destination := some ⟨"d1", "Airport"⟩,
    departureStart := some 1000, departureEnd := some 2000,
    luggage := some ⟨some 1, some 0, some 0, some 0⟩, note := none,
    hostNickname := none, hostContactMethod := none, hostContactValue := none }

/-- The validated form of `wTP` for the sample host. -/
def wTPv : ValidTripInput :=
  { origin := ⟨"o1", "Campus"⟩, destination := ⟨"d1", "Airport"⟩,
    departureStart := 1000, departureEnd := 2000, method := "chat",
    contactValue := none, luggage := ⟨1, 0, 0, 0⟩, nickname := "Hosty",
    note := none }

def wStore5 : Store :=
  { wStore with trips := [("a1", wTrip), ("a2", wTrip), ("a3", wTrip),
      ("a4", wTrip), ("a5", wTrip)] }

def wStore3 : Store :=
  { wStore with trips := [("a1", wTrip), ("a2", wTrip), ("a3", wTrip)] }

/-- Witness for C6: at 5 (resp. 3) active trips creation is refused and the
store unchanged; below the cap it succeeds and appends the new trip. -/
theorem createTrip_capacity_witness :
    createTrip wStore5 (some wHostAuth) wTP "t9" 0 =
      (.error .resourceExhausted, wStore5) ∧
    createTrip wStore (some wHostAuth) wTP "t9" 0 =
      (.ok "t9",
        { wStore with trips :=
            wStore.trips ++ [("t9", tripFromInput wHostAuth.uid wTPv 0)] }) ∧
    createTrip_r0 wStore3 (some wHostAuth) wTP "t9" 0 =
      (.error .resourceExhausted, wStore3) ∧
    createTrip_r0 wStore (some wHostAuth) wTP "t9" 0 =
      (.ok "t9",
        { wStore with trips :=
            wStore.trips ++ [("t9", tripFromInput wHostAuth.uid wTPv 0)] }) :=
  ⟨(createTrip_capacity wStore5 wHostAuth wTP "t9" 0 wTPv rfl).1.1 (by decide),
   (createTrip_capacity wStore wHostAuth wTP "t9" 0 wTPv rfl).1.2 (by decide),
   (createTrip_capacity wStore3 wHostAuth wTP "t9" 0 wTPv rfl).2.1 (by decide),
   (createTrip_capacity wStore wHostAuth wTP "t9" 0 wTPv rfl).2.2 (by decide)⟩

/-! ## Notification-handler error propagation (C8) -/

theorem tryIgnore_eq_ok (m : Except Unit Unit) : tryIgnore m = .ok () := by
  cases m with
  | error e => rfl
  | ok x => rfl

/-- **C8 (amended).** In the `part_001` revision of `notifyPairAcceptance`,
every email lookup (`getUser`) and mail-enqueue (`mail.add`) failure is
caught inside the handler: whenever the `trips/{tripId}` fetch itself does
not throw, no error escapes the handler, for any input document pair and
any behaviour of the user-lookup and mail-add collaborators.  (In the
`part_000` and `index.ts` revisions the mail adds are not wrapped in
try/catch; see the counterexample.) -/
theorem notify_swallows_collab_failures (env : NotifyEnv)
    (before after : Option PairRequest)
    (hget : ∀ tid, env.getTrip tid ≠ .error ()) :
    notifyPairAcceptance env before after = .ok () := by
  cases after with
  | none => rfl
  | some ad =>
    simp only [notifyPairAcceptance]
    split
    · rfl
    · split
      · rfl
      · split
        · rfl
        · split
          next e hg =>
            cases e
            exact absurd hg (hget _)
          next hg => rfl
          next trip hg =>
            by_cases h3 : ad.status = some "accepted" <;>
              by_cases h4 : ad.status = some "declined"
            · exact absurd (h3.symm.trans h4) (by simp)
            · simp only [if_pos h3, if_neg h4, tryIgnore_eq_ok]
              rfl
            · simp only [if_neg h3, if_pos h4, tryIgnore_eq_ok]
              rfl
            · simp only [if_neg h3, if_neg h4, tryIgnore_eq_ok]
              rfl

/-- An environment whose user lookups and mail adds all throw, but whose
trip fetch succeeds. -/
def wFailEnv : NotifyEnv :=
  { getUserEmail := fun _ => .error ()
    addMail := fun _ => .error ()
    getTrip := fun _ => .ok (some wTrip) }

/-- Witness for C8 (amended): with every user lookup and mail add failing,
the `part_001` handler still returns cleanly on a pending→accepted update. -/
theorem notify_swallows_collab_failures_witness :
    notifyPairAcceptance wFailEnv (some wReq)
      (some { wReq with status := some "accepted" }) = .ok () :=
  notify_swallows_collab_failures wFailEnv (some wReq)
    (some { wReq with status := some "accepted" })
    (fun _ h => Except.noConfusion h)

/-- An environment where only the mail add fails. -/
def wBadMailEnv : NotifyEnv :=
  { getUserEmail := fun _ => .ok (some "guest1@example.edu")
    addMail := fun _ => .error ()
    getTrip := fun _ => .ok none }

/-- Counterexample to C8 as stated: in the `part_000` revision of
`notifyPairAcceptance` (same structure as `index.ts`), the mail-add call
is not inside a try/catch, so on a pending→accepted update with a
resolvable requester email a failing mail enqueue escapes the handler. -/
theorem notify_r0_mail_failure_escapes :
    notifyPairAcceptance_r0 wBadMailEnv (some wReq)
      (some { wReq with status := some "accepted" }) = .error () := rfl

/-! ## Contact-value requirement of `createTrip` (C9) -/

/-- Success characterization of `createTrip`: the payload validated and the
new trip was appended. -/
theorem createTrip_ok_shape (s : Store) (a : Auth) (p : CreateTripPayload)
    (newId : String) (now : Int) (r : String) (s' : Store)
    (h : createTrip s (some a) p newId now = (.ok r, s')) :
    r = newId ∧ ∃ v, validateCreateTrip a p = .ok v ∧
      s' = { s with trips := s.trips ++ [(newId, tripFromInput a.uid v now)] } := by
  simp only [createTrip] at h
  split at h
  · simp at h
  next v hval =>
    split at h
    · simp at h
    · simp only [Prod.mk.injEq] at h
      obtain ⟨h1, h2⟩ := h
      injection h1 with h1
      exact ⟨h1.symm, v, hval, h2.symm⟩

def wTPemail : CreateTripPayload := { wTP with hostContactMethod := some "email" }

def wTPphone : CreateTripPayload := { wTP with hostContactMethod := some "phone" }

def wTPchat : CreateTripPayload := { wTP with hostContactMethod := some "chat" }

/-- Counterexample to C9 as stated: a create-trip call with
hostContactMethod = "email" and an absent hostContactValue does not fail
when the caller's auth token carries an email — it succeeds and stores the
token email as the trip's hostContactValue. -/
theorem createTrip_email_fallback_cex :
    (createTrip wStoreNoTrip (some wHostAuth) wTPemail "t9" 0).1 = .ok "t9" ∧
    getDoc (createTrip wStoreNoTrip (some wHostAuth) wTPemail "t9" 0).2.trips
        "t9" =
      some (tripFromInput "host1"
        { wTPv with method := "email",
                    contactValue := some "host1@example.edu" } 0) := by
  constructor <;> rfl

/-- **C9 (amended).** For every create-trip call whose payload passes the
origin/destination/departure checks and whose hostContactValue is absent
or blank: with hostContactMethod = "phone" the call fails with
InvalidArgument; with hostContactMethod = "email" it fails with
InvalidArgument when the caller's auth token carries no email, but when
the token carries one the call may succeed and then stores the token email
as hostContactValue; with hostContactMethod = "chat" no contact value is
required and a successful call stores hostContactValue = null. -/
theorem createTrip_contact_requirement (s : Store) (a : Auth)
    (p : CreateTripPayload) (newId : String) (now : Int) (o d : Location)
    (ho : p.origin = some o) (ho1 : o.id ≠ "") (ho2 : o.name ≠ "")
    (hd : p.destination = some d) (hd1 : d.id ≠ "") (hd2 : d.name ≠ "")
    (hds : ∃ x, p.departureStart = some x)
    (hde : ∃ x, p.departureEnd = some x)
    (hblank : p.hostContactValue = none ∨
      ∃ cv, p.hostContactValue = some cv ∧ cv.trim = "") :
    (p.hostContactMethod = some "phone" →
      (createTrip s (some a) p newId now).1 = .error .invalidArgument) ∧
    (p.hostContactMethod = some "email" → jsTruthy a.tokenEmail = false →
      (createTrip s (some a) p newId now).1 = .error .invalidArgument) ∧
    (p.hostContactMethod = some "email" → jsTruthy a.tokenEmail = true →
      ∀ r s', createTrip s (some a) p newId now = (.ok r, s') →
        getDoc s.trips newId = none →
        ∃ t, getDoc s'.trips newId = some t ∧
          t.hostContactMethod = some "email" ∧
          t.hostContactValue = a.tokenEmail) ∧
    (p.hostContactMethod = some "chat" →
      ∀ r s', createTrip s (some a) p newId now = (.ok r, s') →
        getDoc s.trips newId = none →
        ∃ t, getDoc s'.trips newId = some t ∧ t.hostContactValue = none) := by
  obtain ⟨ds, hds⟩ := hds
  obtain ⟨de, hde⟩ := hde
  refine ⟨?_, ?_, ?_, ?_⟩
  · intro hm
    have hres : resolveContact p.hostContactMethod p.hostContactValue
        a.tokenEmail = .error .invalidArgument := by
      rcases hblank with hb | ⟨cv, hb, hcv⟩
      · simp [resolveContact, hm, hb]
      · simp [resolveContact, hm, hb, hcv]
    have hval : validateCreateTrip a p = .error .invalidArgument := by
      simp [validateCreateTrip, ho, hd, hds, hde, hres]
    simp [createTrip, hval]
  · intro hm htok
    have hres : resolveContact p.hostContactMethod p.hostContactValue
        a.tokenEmail = .error .invalidArgument := by
      rcases hblank with hb | ⟨cv, hb, hcv⟩
      · simp [resolveContact, hm, hb, htok]
      · simp [resolveContact, hm, hb, hcv, htok]
    have hval : validateCreateTrip a p = .error .invalidArgument := by
      simp [validateCreateTrip, ho, hd, hds, hde, hres]
    simp [createTrip, hval]
  · intro hm htok r s' h hfresh
    obtain ⟨hr, v, hval, hs'⟩ := createTrip_ok_shape s a p newId now r s' h
    have hres : resolveContact p.hostContactMethod p.hostContactValue
        a.tokenEmail = .ok ("email", a.tokenEmail) := by
      rcases hblank with hb | ⟨cv, hb, hcv⟩
      · simp [resolveContact, hm, hb, htok]
      · simp [resolveContact, hm, hb, hcv, htok]
    have hv : v.method = "email" ∧ v.contactValue = a.tokenEmail := by
      simp only [validateCreateTrip, ho, hd, hds, hde, hres] at hval
      rw [if_neg (by simp [ho1, ho2]), if_neg (by simp [hd1, hd2])] at hval
      split at hval
      · simp at hval
      · injection hval with hval
        subst hval
        exact ⟨rfl, rfl⟩
    subst hs'
    refine ⟨tripFromInput a.uid v now,
      getDoc_append_right s.trips newId _ hfresh, ?_, hv.2⟩
    show some v.method = some "email"
    rw [hv.1]
  · intro hm r s' h hfresh
    obtain ⟨hr, v, hval, hs'⟩ := createTrip_ok_shape s a p newId now r s' h
    have hres : resolveContact p.hostContactMethod p.hostContactValue
        a.tokenEmail = .ok ("chat", none) := by
      simp [resolveContact, hm]
    have hv : v.contactValue = none := by
      simp only [validateCreateTrip, ho, hd, hds, hde, hres] at hval
      rw [if_neg (by simp [ho1, ho2]), if_neg (by simp [hd1, hd2])] at hval
      split at hval
      · simp at hval
      · injection hval with hval
        subst hval
        rfl
    subst hs'
    exact ⟨tripFromInput a.uid v now,
      getDoc_append_right s.trips newId _ hfresh, hv⟩

/-- Witness for C9 (amended): "phone" with no value is refused; "chat" with
no value succeeds and stores a null hostContactValue. -/
theorem createTrip_contact_requirement_witness :
    (createTrip wStore (some wHostAuth) wTPphone "t9" 0).1 =
      .error .invalidArgument ∧
    ∃ t, getDoc (createTrip wStoreNoTrip (some wHostAuth) wTPchat
        "t9" 0).2.trips "t9" = some t ∧ t.hostContactValue = none :=
  ⟨(createTrip_contact_requirement wStore wHostAuth wTPphone "t9" 0
      ⟨"o1", "Campus"⟩ ⟨"d1", "Airport"⟩ rfl (by decide) (by decide) rfl
      (by decide) (by decide) ⟨1000, rfl⟩ ⟨2000, rfl⟩ (Or.inl rfl)).1 rfl,
   (createTrip_contact_requirement wStoreNoTrip wHostAuth wTPchat "t9" 0
      ⟨"o1", "Campus"⟩ ⟨"d1", "Airport"⟩ rfl (by decide) (by decide) rfl
      (by decide) (by decide) ⟨1000, rfl⟩ ⟨2000, rfl⟩ (Or.inl rfl)).2.2.2
      rfl "t9" _ rfl rfl⟩

/-! ## Trips without a status field (C10) -/

/-- The sample store with the trip's status field removed. -/
def wNoStatusStore : Store :=
  { trips := [("t1", { wTrip with status := none })]
    pairRequests := [("r1", wReq)]
    chatMessages := []
    mail := [] }

/-- **C10.** For every trip document that lacks a status field entirely,
both create-pairing-request and accept-pairing-request treat the trip as
open: the shared status guard `tripStatusClosed` fires only when a
(non-empty) status field is present and differs from `"open"`, so the
"trip not open" FailedPrecondition is never raised for such a trip, and
both operations proceed to success on the sample status-less trip. -/
theorem trip_without_status_treated_open :
    (∀ st : Option String, tripStatusClosed st = true ↔
      ∃ v, st = some v ∧ v ≠ "" ∧ v ≠ "open") ∧
    (createPairRequest wNoStatusStore (some wGuestAuth) wP "n1" 9
        (fun _ => none)).1 = .ok "n1" ∧
    (acceptPairRequest wNoStatusStore (some wHostAuth) (some "r1") 9).1 =
      .ok () := by
  refine ⟨?_, rfl, rfl⟩
  intro st
  cases st with
  | none => simp [tripStatusClosed]
  | some v => simp [tripStatusClosed]

end PeerRide
